import Mathlib

/-!
# Verification of the luggage-storage core (플라잉센터자동화)

Shallow embedding of the financial/state core of the walk-in luggage-storage
application: per-day sequence counters (`app/services/order_number.py`),
the pricing engine (`app/services/pricing.py`), membership ("Flying Pass")
discounts and prepaid recalculation (`app/services/flying_pass.py`),
the order pickup state machine (`app/main.py`), the cash-closing workflow
(`app/main.py`, `app/services/cash_closing.py`) and the ledger-sales
aggregation (`app/services/sales.py`).

Embedding conventions:
* Machine integers are `Int`/`Nat` (Python ints are unbounded, so no modular
  reduction is needed).
* Python floats are embedded as exact rationals (`ℚ`); the discount-rate
  literals 0.05/0.10/0.15/0.20 become 1/20, 1/10, 3/20, 1/5, and Python's
  `round` (round-half-to-even) becomes `pyRound` on `ℚ`.
* UTC timestamps are minutes since an arbitrary epoch (`Int`); the shop's
  fixed local time zone JST is UTC+9h = 540 minutes, and a local calendar
  day is a floor-division by 1440.
* Nullable columns are `Option`; Python truthiness tests such as `x or 1`
  are spelled out at each use site.
* `raise HTTPException(400, ...)` sites are mapped to constructors of
  `AppError` following the spec's error taxonomy (the code raises plain
  HTTP 400s whose detail messages distinguish the cases).
-/

namespace Luggage

/-- Error taxonomy.  Each constructor stands for a family of
`raise HTTPException` sites in `app/main.py` / the service modules. -/
inductive AppError where
  | validationError
  | stateConflict
  | authorizationError
  | uniquenessConflict
  | notFound
deriving DecidableEq, Repr

/-! ## Time helpers (`app/utils.py`, `app/services/storage.py`)

A timestamp is an `Int` number of minutes since the epoch, in UTC.
`JST = timezone(timedelta(hours=9))` in `app/config.py`. -/

/-- JST offset: 9 hours in minutes. -/
def JST_OFFSET_MIN : Int := 540

/-- Minutes per day. -/
def MINUTES_PER_DAY : Int := 1440

/-- The JST calendar day of a UTC timestamp: `to_jst(dt).date()` as a day
index (floor division by one day after shifting to JST). -/
def jstDay (t : Int) : Int := (t + JST_OFFSET_MIN).fdiv MINUTES_PER_DAY

/-- `calculate_storage_days(created_at, pickup_at)` from
`app/services/storage.py`: `ValueError` (a `VALIDATION_ERROR`) when the
pickup instant precedes creation, else
`max((pickup_local.date() - created_local.date()).days + 1, 1)`. -/
def calculate_storage_days (created_at pickup_at : Int) : Except AppError Int :=
  if pickup_at < created_at then
    .error .validationError
  else
    .ok (max (jstDay pickup_at - jstDay created_at + 1) 1)

/-! ## Pricing (`app/services/pricing.py`) -/

def SUITCASE_DAILY_RATE : Int := 800
def BACKPACK_DAILY_RATE : Int := 500
def SET_DAILY_RATE : Int := 1200

/-- `PricingResult` dataclass. -/
structure PricingResult where
  suitcase_qty : Int
  backpack_qty : Int
  set_qty : Int
  price_per_day : Int
deriving DecidableEq, Repr

/-- `calculate_price_per_day(suitcase_qty, backpack_qty)`. -/
def calculate_price_per_day (suitcase_qty backpack_qty : Int) :
    Except AppError PricingResult :=
  if suitcase_qty < 0 ∨ backpack_qty < 0 then
    .error .validationError
  else
    let set_qty := min suitcase_qty backpack_qty
    let price_per_day :=
      set_qty * SET_DAILY_RATE
        + (suitcase_qty - set_qty) * SUITCASE_DAILY_RATE
        + (backpack_qty - set_qty) * BACKPACK_DAILY_RATE
    .ok ⟨suitcase_qty, backpack_qty, set_qty, price_per_day⟩

/-- `discount_rate_for_days(storage_days)`: the float literals
0.20 / 0.15 / 0.10 / 0.05 / 0.0 embedded as exact rationals. -/
def discount_rate_for_days (storage_days : Int) : ℚ :=
  if storage_days ≥ 60 then 1/5
  else if storage_days ≥ 30 then 3/20
  else if storage_days ≥ 14 then 1/10
  else if storage_days ≥ 7 then 1/20
  else 0

/-- Python's built-in `round` on our exact-rational embedding of floats:
round half to even. -/
def pyRound (q : ℚ) : Int :=
  let f : Int := ⌊q⌋
  let frac : ℚ := q - f
  if frac < 1/2 then f
  else if 1/2 < frac then f + 1
  else if f % 2 = 0 then f else f + 1

/-- `calculate_prepaid_amount(price_per_day, expected_storage_days)`:
`discount_rate = discount_rate_for_days(days)`, `gross = price * days`,
`prepaid = int(round(gross * (1.0 - discount_rate)))`. -/
def calculate_prepaid_amount (price_per_day expected_storage_days : Int) :
    ℚ × Int :=
  let discount_rate := discount_rate_for_days expected_storage_days
  let gross : ℚ := (price_per_day : ℚ) * (expected_storage_days : ℚ)
  (discount_rate, pyRound (gross * (1 - discount_rate)))

/-! ## String normalization helpers

Python's `str.strip().upper()` spelled out over the character list, so that
the kernel can evaluate it (the library `String.trim`/`String.toUpper` are
defined through extern loops that do not reduce).  The strings compared
against are all ASCII. -/

/-- ASCII uppercase of one character (`str.upper` restricted to ASCII). -/
def pyUpperChar (c : Char) : Char :=
  if 97 ≤ c.toNat ∧ c.toNat ≤ 122 then Char.ofNat (c.toNat - 32) else c

/-- The whitespace `str.strip` removes (the ASCII cases). -/
def pyIsSpace (c : Char) : Bool :=
  c == ' ' || c == '\t' || c == '\n' || c == '\r'

/-- `value.strip().upper()`. -/
def pyStripUpper (s : String) : String :=
  String.mk
    ((((s.data.dropWhile pyIsSpace).reverse.dropWhile pyIsSpace).reverse).map
      pyUpperChar)

/-! ## Flying Pass tiers (`app/services/flying_pass.py`) -/

def FLYING_PASS_TIERS : List String :=
  ["NONE", "BLUE", "SILVER", "GOLD", "PLATINUM", "BLACK"]

/-- The `FLYING_PASS_FIXED_DISCOUNTS` dict. -/
def FLYING_PASS_FIXED_DISCOUNTS : List (String × Int) :=
  [("NONE", 0), ("BLUE", 100), ("SILVER", 200), ("GOLD", 300),
   ("PLATINUM", 400), ("BLACK", 0)]

/-- `FLYING_PASS_FIXED_DISCOUNTS.get(tier, 0)`. -/
def fixedDiscountOf (tier : String) : Int :=
  ((FLYING_PASS_FIXED_DISCOUNTS.lookup tier).getD 0)

/-- `normalize_flying_pass_tier(raw_value, default="NONE")`:
`value = str(raw_value or "").strip().upper()`, keep it when it is a known
tier, else return the default.  An absent value is `none`. -/
def normalize_flying_pass_tier (raw_value : Option String)
    (dflt : String := "NONE") : String :=
  let value := pyStripUpper (raw_value.getD "")
  if FLYING_PASS_TIERS.contains value then value else dflt

/-- `flying_pass_discount_amount(base_prepaid, tier)`. -/
def flying_pass_discount_amount (base_prepaid : Int) (tier : String) : Int :=
  let resolved_base := max base_prepaid 0
  let normalized_tier := normalize_flying_pass_tier (some tier)
  if normalized_tier = "BLACK" then resolved_base
  else
    let fixed_discount := fixedDiscountOf normalized_tier
    min resolved_base (max fixed_discount 0)

/-! ## Orders (`app/main.py`, table `orders`)

Only the columns the core operations read or write are modelled; statuses
and payment methods are the literal strings the code compares against. -/

/-- `STAFF_PAYMENT_METHODS = {"PAY_QR", "CASH"}` (`app/main.py`). -/
def STAFF_PAYMENT_METHODS : List String := ["PAY_QR", "CASH"]

/-- An `orders` row. -/
structure Order where
  order_id : String
  created_at : Int
  suitcase_qty : Int
  backpack_qty : Int
  set_qty : Int
  expected_pickup_at : Int
  expected_storage_days : Int
  actual_storage_days : Option Int
  extra_days : Int
  price_per_day : Int
  discount_rate : ℚ
  prepaid_amount : Int
  flying_pass_tier : String
  flying_pass_discount_amount : Int
  staff_prepaid_override_amount : Option Int
  extra_amount : Option Int
  final_amount : Int
  payment_method : Option String
  status : String
  actual_pickup_at : Option Int
  staff_id : Option Nat
deriving DecidableEq, Repr

/-- The returned dict of `recalculate_order_prepaid`. -/
structure RecalcSummary where
  expected_storage_days : Int
  discount_rate : ℚ
  base_prepaid_amount : Int
  flying_pass_tier : String
  flying_pass_discount_amount : Int
  auto_prepaid_amount : Int
  prepaid_amount : Int
  staff_prepaid_override_amount : Option Int
deriving DecidableEq, Repr

/-- `recalculate_order_prepaid(order, expected_storage_days=None,
flying_pass_tier=None, submitted_prepaid_amount=None)` from
`app/services/flying_pass.py`.  Returns the mutated order together with the
summary dict the Python function returns.  `order.expected_storage_days or 1`
is the Python truthiness test (0 and the absent value both fall back to 1;
the column is non-null here, so only 0 does). -/
def recalculate_order_prepaid (order : Order)
    (expected_storage_days : Option Int := none)
    (flying_pass_tier : Option String := none)
    (submitted_prepaid_amount : Option Int := none) :
    Order × RecalcSummary :=
  let resolved_days0 :=
    match expected_storage_days with
    | some d => d
    | none => if order.expected_storage_days = 0 then 1 else order.expected_storage_days
  let resolved_days := if resolved_days0 < 1 then 1 else resolved_days0
  let resolved_tier :=
    normalize_flying_pass_tier
      (some (flying_pass_tier.getD order.flying_pass_tier))
  let rp := calculate_prepaid_amount order.price_per_day resolved_days
  let discount_rate := rp.1
  let base_prepaid := rp.2
  let member_discount := flying_pass_discount_amount base_prepaid resolved_tier
  let auto_prepaid := max (base_prepaid - member_discount) 0
  let resolved : Int × Option Int :=
    match submitted_prepaid_amount with
    | none =>
      match order.staff_prepaid_override_amount with
      | none => (auto_prepaid, none)
      | some ov =>
        let r := max ov 0
        (r, if r ≠ auto_prepaid then some r else none)
    | some s =>
      let r := max s 0
      (r, if r ≠ auto_prepaid then some r else none)
  let resolved_prepaid := resolved.1
  let override_amount := resolved.2
  let order' : Order :=
    { order with
      expected_storage_days := resolved_days
      discount_rate := discount_rate
      flying_pass_tier := resolved_tier
      flying_pass_discount_amount := member_discount
      staff_prepaid_override_amount := override_amount
      prepaid_amount := resolved_prepaid
      final_amount := resolved_prepaid + (order.extra_amount.getD 0) }
  (order', ⟨resolved_days, discount_rate, base_prepaid, resolved_tier,
            member_discount, auto_prepaid, resolved_prepaid, override_amount⟩)

/-- `apply_pickup_completion(order, staff_id)` from `app/main.py`.  The
`now = utc_now()` read is made an explicit parameter; the `ValueError`
escaping from `calculate_storage_days` is the only failure. -/
def apply_pickup_completion (order : Order) (staff_id : Nat) (now : Int) :
    Except AppError Order :=
  match calculate_storage_days order.created_at now with
  | .error e => .error e
  | .ok actual_days =>
  let extra_days := max (actual_days - order.expected_storage_days) 0
  let extra_amount := extra_days * order.price_per_day
  .ok { order with
        actual_pickup_at := some now
        actual_storage_days := some actual_days
        extra_days := extra_days
        extra_amount := some extra_amount
        final_amount := order.prepaid_amount + extra_amount
        status := "PICKED_UP"
        staff_id := some staff_id }

/-- `order.payment_method in STAFF_PAYMENT_METHODS` — `False` for `None`. -/
def paymentMethodIsStaff (order : Order) : Bool :=
  match order.payment_method with
  | some m => STAFF_PAYMENT_METHODS.contains m
  | none => false

/-- `undo_pickup_completion(order, staff_id)` from `app/main.py`. -/
def undo_pickup_completion (order : Order) (staff_id : Nat) : Order :=
  { order with
    actual_pickup_at := none
    actual_storage_days := none
    extra_days := 0
    extra_amount := some 0
    final_amount := order.prepaid_amount
    status := if paymentMethodIsStaff order then "PAID" else "PAYMENT_PENDING"
    staff_id := some staff_id }

/-- The `/staff/api/orders/{order_id}/pickup` endpoint body
(`staff_inline_pickup_order`), after the order has been fetched: apply the
pickup only when the status is not already `PICKED_UP`, otherwise return
the order untouched. -/
def staff_inline_pickup_order (order : Order) (staff_id : Nat) (now : Int) :
    Except AppError Order :=
  if order.status ≠ "PICKED_UP" then
    apply_pickup_completion order staff_id now
  else
    .ok order

/-- The `/staff/api/orders/{order_id}/undo-pickup` endpoint body
(`staff_inline_undo_pickup_order`), after the order has been fetched:
undo only when the status is `PICKED_UP`, otherwise return the order
untouched. -/
def staff_inline_undo_pickup_order (order : Order) (staff_id : Nat) :
    Except AppError Order :=
  if order.status = "PICKED_UP" then
    .ok (undo_pickup_completion order staff_id)
  else
    .ok order

/-! ## Ledger sales (`app/services/sales.py`, `app/utils.py`)

A business date is modelled as a JST day index (`Int`);
`business_date_range_utc` turns it into the half-open UTC interval covering
that local calendar day. -/

/-- `business_date_range_utc(business_date)`: JST midnight of the day and of
the next day, converted to UTC (JST = UTC + 540 min). -/
def business_date_range_utc (business_date : Int) : Int × Int :=
  (business_date * MINUTES_PER_DAY - JST_OFFSET_MIN,
   (business_date + 1) * MINUTES_PER_DAY - JST_OFFSET_MIN)

/-- Result dict of `summarize_order_sales_for_date`. -/
structure SalesSummary where
  cash_amount : Int
  qr_amount : Int
  sales_total_amount : Int
deriving DecidableEq, Repr

/-- The filter applied by the `orders` query in
`summarize_order_sales_for_date`: `created_at` in the business date's UTC
range and `status IN ["PAID", "PICKED_UP"]`. -/
def salesDateFilter (business_date : Int) (o : Order) : Bool :=
  let r := business_date_range_utc business_date
  decide (r.1 ≤ o.created_at) && decide (o.created_at < r.2)
    && (o.status == "PAID" || o.status == "PICKED_UP")

/-- The accumulation loop of `summarize_order_sales_for_date`:
`amount = int(order.prepaid_amount or 0)` added to the cash bucket for
`payment_method == "CASH"`, to the QR bucket for `"PAY_QR"`, and to neither
otherwise. -/
def salesLoop : List Order → Int → Int → SalesSummary
  | [], cash_amount, qr_amount =>
    ⟨cash_amount, qr_amount, cash_amount + qr_amount⟩
  | o :: rest, cash_amount, qr_amount =>
    let amount := o.prepaid_amount
    if o.payment_method = some "CASH" then
      salesLoop rest (cash_amount + amount) qr_amount
    else if o.payment_method = some "PAY_QR" then
      salesLoop rest cash_amount (qr_amount + amount)
    else
      salesLoop rest cash_amount qr_amount

/-- `summarize_order_sales_for_date(db, business_date)`: the `orders` table
is passed in as a list. -/
def summarize_order_sales_for_date (orders : List Order)
    (business_date : Int) : SalesSummary :=
  salesLoop (orders.filter (salesDateFilter business_date)) 0 0

/-! ## Cash closings (`app/services/cash_closing.py`, `app/main.py`) -/

def COIN_BILL_DENOMS : List Int := [10000, 5000, 2000, 1000, 500, 100, 50, 10, 5, 1]

def CASH_CLOSING_TYPES : List String := ["MORNING_HANDOVER", "FINAL_CLOSE"]

/-- Denomination counts, as the dict keyed by face value. -/
abbrev DenomCounts := List (Int × Int)

/-- `counts_by_denom.get(denom, 0)`. -/
def denomGet (counts : DenomCounts) (denom : Int) : Int :=
  (List.lookup denom counts).getD 0

/-- `calc_cash_total(counts_by_denom)`. -/
def calc_cash_total (counts : DenomCounts) : Int :=
  (COIN_BILL_DENOMS.map (fun denom => denom * denomGet counts denom)).sum

/-- `parse_cash_closing_type(raw_value)`: strip + uppercase, must be a known
closing type (HTTP 400 = `VALIDATION_ERROR` otherwise). -/
def parse_cash_closing_type (raw_value : String) : Except AppError String :=
  let value := pyStripUpper raw_value
  if CASH_CLOSING_TYPES.contains value then .ok value
  else .error .validationError

/-- `parse_denomination_counts(...)`: all ten counts must be non-negative. -/
def parse_denomination_counts (counts : DenomCounts) : Except AppError DenomCounts :=
  if (COIN_BILL_DENOMS.map (denomGet counts)).any (fun v => decide (v < 0)) then
    .error .validationError
  else
    .ok counts

/-- `parse_actual_qr_amount(raw_value, auto_qr_amount)`. -/
def parse_actual_qr_amount (raw_value auto_qr_amount : Int) : Int :=
  if raw_value < 0 then auto_qr_amount else raw_value

/-- A `cash_closings` row (the columns the workflow reads or writes). -/
structure CashClosingRow where
  closing_id : Nat
  business_date : Int
  closing_type : String
  workflow_status : String
  counts : DenomCounts
  total_amount : Int
  paypay_amount : Int
  actual_qr_amount : Int
  qr_difference_amount : Int
  check_auto_amount : Int
  expected_amount : Int
  actual_amount : Int
  difference_amount : Int
  submitted_by_staff_id : Option Nat
  submitted_at : Option Int
  verified_by_staff_id : Option Nat
  verified_at : Option Int
  check_cash_match : Bool
  check_qr_match : Bool
  check_pending_items : Bool
  check_handover_note : Bool
  staff_id : Option Nat
deriving Repr

/-- The computed-field dict returned by `build_cash_closing_fields`. -/
structure CashClosingFields where
  total_amount : Int
  paypay_amount : Int
  actual_qr_amount : Int
  qr_difference_amount : Int
  check_auto_amount : Int
  expected_amount : Int
  actual_amount : Int
  difference_amount : Int
deriving DecidableEq, Repr

/-- `build_cash_closing_fields(counts, actual_qr_amount, db, business_date)`:
denomination total, the automatic ledger sales baselines for the business
date, and the QR/cash differences. -/
def build_cash_closing_fields (counts : DenomCounts) (actual_qr_amount : Int)
    (orders : List Order) (business_date : Int) :
    Except AppError CashClosingFields :=
  let total_amount := calc_cash_total counts
  let sales := summarize_order_sales_for_date orders business_date
  let auto_paypay := sales.qr_amount
  let resolved_actual_qr := parse_actual_qr_amount actual_qr_amount auto_paypay
  if resolved_actual_qr < 0 then
    .error .validationError
  else
    let qr_difference_amount := resolved_actual_qr - auto_paypay
    let check_auto_amount := sales.cash_amount
    let difference_amount := total_amount - check_auto_amount
    .ok ⟨total_amount, auto_paypay, resolved_actual_qr, qr_difference_amount,
         check_auto_amount, check_auto_amount, total_amount, difference_amount⟩

/-- `ensure_unique_cash_closing_type(db, business_date, closing_type,
exclude_closing_id=None)`: HTTP 400 (the duplicate-natural-key
`UNIQUENESS_CONFLICT`) when a row with the same key exists.  The Python
`if exclude_closing_id:` guard is truthiness, so an id of 0 disables the
exclusion. -/
def ensure_unique_cash_closing_type (db : List CashClosingRow)
    (business_date : Int) (closing_type : String)
    (exclude_closing_id : Option Nat := none) : Except AppError Unit :=
  let matches0 := db.filter (fun r =>
    decide (r.business_date = business_date) && (r.closing_type == closing_type))
  let matches1 :=
    match exclude_closing_id with
    | some ex =>
      if ex ≠ 0 then
        matches0.filter (fun r : CashClosingRow => r.closing_id != ex)
      else matches0
    | none => matches0
  if matches1.isEmpty then .ok () else .error .uniquenessConflict

/-- Outcome of the `/staff/cash-closing` create endpoint: either a redirect
to the edit view of an already-existing row for the same natural key, or a
freshly inserted row.  The second component is the resulting `cash_closings`
table. -/
inductive CreateOutcome where
  | redirected (closing_id : Nat)
  | inserted (row : CashClosingRow)
deriving Repr

/-- `staff_cash_closing_create` (`app/main.py`): validate the closing type,
look for an existing row with the same `(business_date, closing_type)` —
redirecting to its edit view when found, without inserting — and otherwise
validate the counts, compute the fields and insert a fresh `DRAFT` row.
`new_id` stands for the database-assigned primary key. -/
def staff_cash_closing_create (orders : List Order) (db : List CashClosingRow)
    (business_date : Int) (closing_type : String) (counts : DenomCounts)
    (actual_qr_amount : Int) (actor : Nat) (new_id : Nat) :
    Except AppError (CreateOutcome × List CashClosingRow) :=
  match parse_cash_closing_type closing_type with
  | .error e => .error e
  | .ok normalized_closing_type =>
  match db.find? (fun r =>
      decide (r.business_date = business_date)
        && (r.closing_type == normalized_closing_type)) with
  | some existing_row => .ok (.redirected existing_row.closing_id, db)
  | none =>
    match parse_denomination_counts counts with
    | .error e => .error e
    | .ok counts =>
    match build_cash_closing_fields counts actual_qr_amount orders business_date with
    | .error e => .error e
    | .ok computed =>
    let row : CashClosingRow :=
      { closing_id := new_id
        business_date := business_date
        closing_type := normalized_closing_type
        workflow_status := "DRAFT"
        counts := counts
        total_amount := computed.total_amount
        paypay_amount := computed.paypay_amount
        actual_qr_amount := computed.actual_qr_amount
        qr_difference_amount := computed.qr_difference_amount
        check_auto_amount := computed.check_auto_amount
        expected_amount := computed.expected_amount
        actual_amount := computed.actual_amount
        difference_amount := computed.difference_amount
        submitted_by_staff_id := none
        submitted_at := none
        verified_by_staff_id := none
        verified_at := none
        check_cash_match := false
        check_qr_match := false
        check_pending_items := false
        check_handover_note := false
        staff_id := some actor }
    .ok (.inserted row, db ++ [row])

/-- `not row.submitted_by_staff_id` — Python truthiness of the nullable
integer column. -/
def submitterFalsy (row : CashClosingRow) : Bool :=
  match row.submitted_by_staff_id with
  | none => true
  | some n => n == 0

/-- `staff_cash_closing_verify_lock` (`app/main.py`), after the row fetch.
The four checklist form fields arrive as strings compared against `"on"`.
Raise sites: not `SUBMITTED` → `STATE_CONFLICT`; missing submitter or
self-verification → `AUTHORIZATION_ERROR`; incomplete checklist →
`VALIDATION_ERROR`. -/
def staff_cash_closing_verify_lock (row : CashClosingRow)
    (check_cash_match check_qr_match check_pending_items check_handover_note : String)
    (actor : Nat) (now : Int) : Except AppError CashClosingRow :=
  if row.workflow_status ≠ "SUBMITTED" then
    .error .stateConflict
  else if submitterFalsy row then
    .error .authorizationError
  else if row.submitted_by_staff_id = some actor then
    .error .authorizationError
  else
    let checks := [check_cash_match == "on", check_qr_match == "on",
                   check_pending_items == "on", check_handover_note == "on"]
    if ¬ (checks.all id) then
      .error .validationError
    else
      .ok { row with
            check_cash_match := true
            check_qr_match := true
            check_pending_items := true
            check_handover_note := true
            workflow_status := "LOCKED"
            verified_by_staff_id := some actor
            verified_at := some now
            staff_id := some actor }

/-! ## Per-day sequence counters (`app/services/order_number.py`)

The `daily_counters` table keyed by `business_date`, holding `last_seq`. -/

/-- The counter table: business date string ↦ `last_seq` of the existing
row, if any. -/
abbrev CounterTable := String → Option Nat

/-- The counter core of `build_order_id(db, now_utc)`: read the row for the
business date; create it at 1 and return 1 when absent, else increment
`last_seq`, persist it and return the new value.  (The function then formats
the id as `f"{business_date}-{seq:03d}"`; the claim is about the sequence.) -/
def nextOrderSeq (counters : CounterTable) (business_date : String) :
    Nat × CounterTable :=
  match counters business_date with
  | none =>
    (1, fun d => if d = business_date then some 1 else counters d)
  | some last_seq =>
    let seq := last_seq + 1
    (seq, fun d => if d = business_date then some seq else counters d)

/-- The sequence of values handed out by `n` back-to-back calls of
`build_order_id` for the same business date. -/
def runOrderSeq (counters : CounterTable) (business_date : String) :
    Nat → List Nat
  | 0 => []
  | n + 1 =>
    match nextOrderSeq counters business_date with
    | (seq, counters') => seq :: runOrderSeq counters' business_date n

/-! ## Sequence counter lemmas and claim C1 -/

/-- Closed form of one counter call: the returned sequence is the stored
`last_seq` (0 when the row is absent) plus one, and the table now stores
exactly that value for the date. -/
theorem nextOrderSeq_eq (counters : CounterTable) (business_date : String) :
    nextOrderSeq counters business_date
      = ((counters business_date).getD 0 + 1,
         fun d => if d = business_date
                  then some ((counters business_date).getD 0 + 1)
                  else counters d) := by
  unfold nextOrderSeq
  cases h : counters business_date <;> simp [h]

/-- Unfolding lemma for one step of a run. -/
theorem runOrderSeq_succ (counters : CounterTable) (business_date : String)
    (n : Nat) :
    runOrderSeq counters business_date (n + 1)
      = (nextOrderSeq counters business_date).1
          :: runOrderSeq (nextOrderSeq counters business_date).2 business_date n :=
  rfl

/-- Runs started at a stored value `k` hand out `k+1, k+2, ...`. -/
theorem runOrderSeq_of_some (n : Nat) :
    ∀ (counters : CounterTable) (business_date : String) (k : Nat),
      counters business_date = some k →
        runOrderSeq counters business_date n = List.range' (k + 1) n := by
  induction n with
  | zero => intro counters business_date k _; rfl
  | succ n ih =>
    intro counters business_date k hk
    rw [runOrderSeq_succ, nextOrderSeq_eq, hk]
    simp only [Option.getD_some]
    rw [ih _ business_date (k + 1) (by simp), List.range'_succ]

/-- Claim C1: for every business date, each call to the order-id sequence
generator (`build_order_id` in `app/services/order_number.py`) returns the
stored counter's `last_seq` incremented by 1 — creating the row at 1 and
returning 1 when none exists for that date — and persists the returned
value; hence `n` successive calls for a date with no counter row yet return
exactly `1, 2, ..., n`: strictly increasing from 1, no duplicates, no
gaps. -/
theorem claim_C1_sequence_counter :
    (∀ (counters : CounterTable) (business_date : String),
        (nextOrderSeq counters business_date).1
            = (counters business_date).getD 0 + 1
          ∧ (nextOrderSeq counters business_date).2 business_date
              = some ((counters business_date).getD 0 + 1))
      ∧ ∀ (counters : CounterTable) (business_date : String) (n : Nat),
          counters business_date = none →
            runOrderSeq counters business_date n = List.range' 1 n := by
  constructor
  · intro counters business_date
    rw [nextOrderSeq_eq]
    exact ⟨rfl, by simp⟩
  · intro counters business_date n hnone
    cases n with
    | zero => rfl
    | succ n =>
      rw [runOrderSeq_succ, nextOrderSeq_eq, hnone]
      simp only [Option.getD_none, Nat.zero_add]
      rw [runOrderSeq_of_some n _ business_date 1 (by simp), List.range'_succ]

/-- Witness for claim C1 at a concrete empty table: three calls for the
date `"20240101"` return `[1, 2, 3]`. -/
theorem claim_C1_sequence_counter_witness :
    runOrderSeq (fun _ => none) "20240101" 3 = [1, 2, 3] := by
  have h := claim_C1_sequence_counter.2 (fun _ => none) "20240101" 3 rfl
  simpa [List.range'] using h

/-! ## Pricing claims C9 and C8 -/

/-- The duration-discount step table as the spec words it: a lower-bound
inclusive interval table (for comparison with the source's descending
`if days >= …` chain). -/
def specDiscountRateForDays (days : Int) : ℚ :=
  if days < 7 then 0
  else if days < 14 then 1/20
  else if days < 30 then 1/10
  else if days < 60 then 3/20
  else 1/5

/-- Claim C9: `calculate_prepaid_amount(pricePerDay, days)` returns the pair
of the step-table discount rate (`<7 → 0`, `[7,14) → 5%`, `[14,30) → 10%`,
`[30,60) → 15%`, `[60,∞) → 20%`) and `round(pricePerDay * days * (1 - rate))`
rounded to the nearest integer (Python `round`, embedded over exact
rationals as round-half-to-even); in particular
`calculate_prepaid_amount 1200 10 = (0.05, 11400)`. -/
theorem claim_C9_prepaid_amount :
    (∀ price_per_day days : Int,
        calculate_prepaid_amount price_per_day days
          = (specDiscountRateForDays days,
             pyRound ((price_per_day : ℚ) * (days : ℚ)
               * (1 - specDiscountRateForDays days))))
      ∧ calculate_prepaid_amount 1200 10 = (1/20, 11400) := by
  constructor
  · intro price_per_day days
    have hrate : discount_rate_for_days days = specDiscountRateForDays days := by
      unfold discount_rate_for_days specDiscountRateForDays
      split_ifs <;> first | rfl | omega
    unfold calculate_prepaid_amount
    rw [hrate]
  · norm_num [calculate_prepaid_amount, discount_rate_for_days, pyRound]

/-- Every entry of the fixed-discount table (and the lookup default) is
non-negative. -/
theorem fixedDiscountOf_nonneg (t : String) : 0 ≤ fixedDiscountOf t := by
  unfold fixedDiscountOf FLYING_PASS_FIXED_DISCOUNTS
  simp only [List.lookup]
  repeat' split
  all_goals norm_num

/-- Claim C8: the membership discount is never negative; the full-waiver
tier `BLACK` discounts the entire base prepaid (floored at 0); every other
resolved tier discounts `min(fixed, basePrepaid)` floored at 0; and an
unknown or absent raw tier value normalizes to `"NONE"` (whose fixed
discount is 0) instead of failing. -/
theorem claim_C8_membership_discount (base_prepaid : Int) (tier : String)
    (raw : Option String) :
    0 ≤ flying_pass_discount_amount base_prepaid tier
      ∧ (normalize_flying_pass_tier (some tier) = "BLACK" →
          flying_pass_discount_amount base_prepaid tier = max base_prepaid 0)
      ∧ (normalize_flying_pass_tier (some tier) ≠ "BLACK" →
          flying_pass_discount_amount base_prepaid tier
            = max (min (fixedDiscountOf (normalize_flying_pass_tier (some tier)))
                       base_prepaid) 0)
      ∧ (FLYING_PASS_TIERS.contains (pyStripUpper (raw.getD "")) = false →
          normalize_flying_pass_tier raw = "NONE")
      ∧ fixedDiscountOf "NONE" = 0 := by
  refine ⟨?_, ?_, ?_, ?_, rfl⟩
  · simp only [flying_pass_discount_amount]
    have := fixedDiscountOf_nonneg (normalize_flying_pass_tier (some tier))
    split_ifs <;> omega
  · intro hb
    simp only [flying_pass_discount_amount]
    rw [if_pos hb]
  · intro hb
    simp only [flying_pass_discount_amount]
    rw [if_neg hb]
    have := fixedDiscountOf_nonneg (normalize_flying_pass_tier (some tier))
    omega
  · intro hraw
    unfold normalize_flying_pass_tier
    have h : ¬ (FLYING_PASS_TIERS.contains (pyStripUpper (raw.getD "")) = true) := by
      rw [hraw]
      simp
    rw [if_neg h]

/-- Witness for claim C8 at concrete inputs: a `GOLD` member with base
prepaid 500 gets the fixed 300 off, and the unknown tier string
`" weird "` normalizes to `"NONE"`. -/
theorem claim_C8_membership_discount_witness :
    flying_pass_discount_amount 500 "GOLD" = 300
      ∧ normalize_flying_pass_tier (some " weird ") = "NONE" := by
  have h := claim_C8_membership_discount 500 "GOLD" (some " weird ")
  refine ⟨?_, h.2.2.2.1 (by decide)⟩
  have h3 := h.2.2.1 (by decide)
  rw [h3]
  decide

/-! ## Order lifecycle claims C7, C2, C3 and C6 -/

/-- The §3 order invariant: `final_amount = prepaid_amount + extra_amount`
(a `NULL` `extra_amount` reads as 0, as in the code's `or 0`). -/
def orderAmountInvariant (o : Order) : Prop :=
  o.final_amount = o.prepaid_amount + o.extra_amount.getD 0

/-- A freshly submitted customer order, exactly as `build_new_order_record`
creates it (`status = "PAYMENT_PENDING"` with the customer's payment method
already recorded): 1 suitcase + 1 backpack, one expected storage day. -/
def sampleOrder : Order where
  order_id := "20240101-001"
  created_at := 0
  suitcase_qty := 1
  backpack_qty := 1
  set_qty := 1
  expected_pickup_at := 600
  expected_storage_days := 1
  actual_storage_days := none
  extra_days := 0
  price_per_day := 1200
  discount_rate := 0
  prepaid_amount := 1200
  flying_pass_tier := "NONE"
  flying_pass_discount_amount := 0
  staff_prepaid_override_amount := none
  extra_amount := some 0
  final_amount := 1200
  payment_method := some "CASH"
  status := "PAYMENT_PENDING"
  actual_pickup_at := none
  staff_id := none

/-- `sampleOrder` after the staff marked it paid. -/
def samplePaidOrder : Order := { sampleOrder with status := "PAID" }

/-- Claim C7: every core mutating operation on an order — prepaid
recalculation, pickup completion and pickup undo — re-establishes
`final_amount = prepaid_amount + extra_amount`; in particular the invariant
is preserved from any state satisfying it. -/
theorem claim_C7_final_amount_invariant (o : Order)
    (hinv : orderAmountInvariant o) :
    (∀ (days : Option Int) (tier : Option String) (submitted : Option Int),
        orderAmountInvariant (recalculate_order_prepaid o days tier submitted).1)
      ∧ (∀ (sid : Nat) (now : Int) (o' : Order),
          apply_pickup_completion o sid now = .ok o' → orderAmountInvariant o')
      ∧ ∀ sid : Nat, orderAmountInvariant (undo_pickup_completion o sid) := by
  clear hinv
  refine ⟨fun days tier submitted => ?_, fun sid now o' h => ?_, fun sid => ?_⟩
  · simp [orderAmountInvariant, recalculate_order_prepaid]
  · unfold apply_pickup_completion at h
    split at h
    · exact absurd h (by simp)
    · injection h with h
      subst h
      simp [orderAmountInvariant]
  · simp [orderAmountInvariant, undo_pickup_completion]

/-- Witness for claim C7 at `sampleOrder` (which satisfies the invariant):
the invariant holds after an undo. -/
theorem claim_C7_final_amount_invariant_witness :
    orderAmountInvariant (undo_pickup_completion sampleOrder 1) := by
  exact (claim_C7_final_amount_invariant sampleOrder
    (by norm_num [orderAmountInvariant, sampleOrder])).2.2 1

/-- When the pickup instant does not precede creation,
`apply_pickup_completion` succeeds and leaves `prepaid_amount` and
`payment_method` untouched. -/
theorem apply_pickup_completion_ok (o : Order) (sid : Nat) (now : Int)
    (h : o.created_at ≤ now) :
    ∃ o', apply_pickup_completion o sid now = .ok o'
      ∧ o'.prepaid_amount = o.prepaid_amount
      ∧ o'.payment_method = o.payment_method := by
  unfold apply_pickup_completion calculate_storage_days
  rw [if_neg (not_lt.mpr h)]
  exact ⟨_, rfl, rfl, rfl⟩

/-- Refutation of claim C2 as stated: `sampleOrder` is a reachable
`PAYMENT_PENDING` order (a fresh customer submission records the chosen
payment method before payment), yet `apply_pickup_completion` followed by
`undo_pickup_completion` leaves it `"PAID"`, not `"PAYMENT_PENDING"` —
`undo_pickup_completion` restores the status from `payment_method`, not
from the pre-pickup status. -/
theorem claim_C2_counterexample :
    sampleOrder.status = "PAYMENT_PENDING"
      ∧ (apply_pickup_completion sampleOrder 1 600).map
          (fun o => (undo_pickup_completion o 1).status) = .ok "PAID"
      ∧ ("PAID" : String) ≠ "PAYMENT_PENDING" := by
  exact ⟨rfl, rfl, by decide⟩

/-- Claim C2 (amended): `completePickup` then `undoPickup` restores
`status`, `prepaid_amount` and `final_amount` exactly for every
`PAYMENT_PENDING`/`PAID` order whose pre-pickup state is coherent: the
payment method is one of the staff methods (`CASH`/`PAY_QR`) exactly when
the status is `PAID`, and `final_amount = prepaid_amount` (no extra-day
overage recorded before pickup).  Without the coherence hypotheses only
`prepaid_amount` is restored: `undoPickup` sets
`final_amount = prepaid_amount` and chooses the status from
`payment_method` alone. -/
theorem claim_C2_pickup_undo_roundtrip (o : Order) (sid sid2 : Nat) (now : Int)
    (hstatus : o.status = "PAYMENT_PENDING" ∨ o.status = "PAID")
    (hcreated : o.created_at ≤ now)
    (hpm : o.status = "PAID" ↔ paymentMethodIsStaff o = true)
    (hfin : o.final_amount = o.prepaid_amount) :
    ∃ o', apply_pickup_completion o sid now = .ok o'
      ∧ (undo_pickup_completion o' sid2).status = o.status
      ∧ (undo_pickup_completion o' sid2).prepaid_amount = o.prepaid_amount
      ∧ (undo_pickup_completion o' sid2).final_amount = o.final_amount := by
  obtain ⟨o', happ, hp, hm⟩ := apply_pickup_completion_ok o sid now hcreated
  have hms : paymentMethodIsStaff o' = paymentMethodIsStaff o := by
    simp [paymentMethodIsStaff, hm]
  refine ⟨o', happ, ?_, ?_, ?_⟩
  · simp only [undo_pickup_completion, hms]
    by_cases hb : paymentMethodIsStaff o = true
    · rw [if_pos hb]
      exact (hpm.mpr hb).symm
    · rw [if_neg hb]
      rcases hstatus with h | h
      · exact h.symm
      · exact absurd (hpm.mp h) hb
  · simpa using hp
  · simp only [undo_pickup_completion]
    exact hp.trans hfin.symm

/-- Witness for claim C2 at `samplePaidOrder` (a paid cash order with no
pre-pickup overage): the pickup/undo round trip restores status `"PAID"`,
prepaid 1200 and final 1200. -/
theorem claim_C2_pickup_undo_roundtrip_witness :
    (apply_pickup_completion samplePaidOrder 1 600).map
        (fun o => ((undo_pickup_completion o 2).status,
                   (undo_pickup_completion o 2).prepaid_amount,
                   (undo_pickup_completion o 2).final_amount))
      = .ok ("PAID", 1200, 1200) := by
  obtain ⟨o', happ, h1, h2, h3⟩ :=
    claim_C2_pickup_undo_roundtrip samplePaidOrder 1 2 600 (Or.inr rfl)
      (by norm_num [samplePaidOrder, sampleOrder])
      (by decide) rfl
  rw [happ]
  simp only [Except.map]
  rw [h1, h2, h3]
  rfl

/-- `sampleOrder` with a stored staff price override of 999. -/
def sampleOverriddenOrder : Order :=
  { sampleOrder with staff_prepaid_override_amount := some 999 }

/-- Refutation of claim C3 as stated: on an order carrying a stored staff
override (999) that differs from the automatic prepaid (1200), calling
`recalculate_order_prepaid` with no `submitted_prepaid_amount` keeps the
override — `prepaid_amount` becomes 999, not the automatic 1200, and the
stored override is not cleared. -/
theorem claim_C3_counterexample :
    sampleOverriddenOrder.status ≠ "PICKED_UP"
      ∧ (recalculate_order_prepaid sampleOverriddenOrder none none none).2.auto_prepaid_amount
          = 1200
      ∧ (recalculate_order_prepaid sampleOverriddenOrder none none none).1.prepaid_amount
          = 999
      ∧ (recalculate_order_prepaid sampleOverriddenOrder none none none).1.staff_prepaid_override_amount
          = some 999
      ∧ (999 : Int) ≠ 1200 := by
  have hcp : calculate_prepaid_amount 1200 1 = (0, 1200) := by
    norm_num [calculate_prepaid_amount, discount_rate_for_days, pyRound]
  have hnt : normalize_flying_pass_tier (some "NONE") = "NONE" := by decide
  have hfd : flying_pass_discount_amount 1200 "NONE" = 0 := by decide
  refine ⟨by decide, ?_, ?_, ?_, by decide⟩ <;>
    simp [recalculate_order_prepaid, sampleOverriddenOrder, sampleOrder,
      hcp, hnt, hfd]

/-- Claim C3 (amended): for an order not in `PICKED_UP` state (the guard
lives in the callers), `recalculate_order_prepaid` behaves as follows.
With a non-negative `submitted_prepaid_amount`, that amount becomes
`prepaid_amount` and is recorded as a staff override exactly when it
differs from the automatic prepaid.  With no submitted amount, a stored
override is **kept** (floored at 0, re-recorded exactly when it still
differs from the automatic prepaid), and only when no override is stored
does `prepaid_amount` become the automatic prepaid.  In all cases
`final_amount = prepaid_amount + extra_amount`. -/
theorem claim_C3_recalculate_prepaid (o : Order) (days : Option Int)
    (tier : Option String) (submitted : Option Int)
    (hstatus : o.status ≠ "PICKED_UP") :
    (∀ v : Int, submitted = some v → 0 ≤ v →
        (recalculate_order_prepaid o days tier submitted).1.prepaid_amount = v
          ∧ (recalculate_order_prepaid o days tier submitted).1.staff_prepaid_override_amount
              = (if v ≠ (recalculate_order_prepaid o days tier submitted).2.auto_prepaid_amount
                 then some v else none))
      ∧ (submitted = none → o.staff_prepaid_override_amount = none →
          (recalculate_order_prepaid o days tier submitted).1.prepaid_amount
              = (recalculate_order_prepaid o days tier submitted).2.auto_prepaid_amount
            ∧ (recalculate_order_prepaid o days tier submitted).1.staff_prepaid_override_amount
                = none)
      ∧ (∀ w : Int, submitted = none → o.staff_prepaid_override_amount = some w →
          (recalculate_order_prepaid o days tier submitted).1.prepaid_amount = max w 0
            ∧ (recalculate_order_prepaid o days tier submitted).1.staff_prepaid_override_amount
                = (if max w 0 ≠ (recalculate_order_prepaid o days tier submitted).2.auto_prepaid_amount
                   then some (max w 0) else none))
      ∧ (recalculate_order_prepaid o days tier submitted).1.final_amount
          = (recalculate_order_prepaid o days tier submitted).1.prepaid_amount
              + o.extra_amount.getD 0 := by
  clear hstatus
  refine ⟨fun v hv hv0 => ?_, fun hs ho => ?_, fun w hs ho => ?_, ?_⟩
  · subst hv
    have hmax : max v 0 = v := by omega
    constructor <;> simp [recalculate_order_prepaid, hmax]
  · subst hs
    constructor <;> simp [recalculate_order_prepaid, ho]
  · subst hs
    constructor <;> simp [recalculate_order_prepaid, ho]
  · rcases submitted with _ | v
    · rcases ho : o.staff_prepaid_override_amount with _ | w <;>
        simp [recalculate_order_prepaid, ho]
    · simp [recalculate_order_prepaid]

/-- Witness for claim C3 at `sampleOrder` with a submitted amount of 1000
(automatic prepaid is 1200): the submitted amount wins and `final_amount`
follows it. -/
theorem claim_C3_recalculate_prepaid_witness :
    (recalculate_order_prepaid sampleOrder none none (some 1000)).1.prepaid_amount = 1000
      ∧ (recalculate_order_prepaid sampleOrder none none (some 1000)).1.final_amount = 1000 := by
  have h := claim_C3_recalculate_prepaid sampleOrder none none (some 1000) (by decide)
  obtain ⟨hp, _⟩ := h.1 1000 rfl (by norm_num)
  refine ⟨hp, ?_⟩
  rw [h.2.2.2, hp]
  rfl

/-- Refutation of claim C6 as stated: on a `PAID` (not `PICKED_UP`) order,
the inline undo endpoint does not fail with `STATE_CONFLICT`; it returns the
order unchanged as a success. -/
theorem claim_C6_counterexample :
    samplePaidOrder.status ≠ "PICKED_UP"
      ∧ staff_inline_undo_pickup_order samplePaidOrder 1 = .ok samplePaidOrder := by
  exact ⟨by decide, rfl⟩

/-- Claim C6 (amended): the inline pickup/undo endpoints treat a call from
an undeclared source state as a silent no-op, not a `STATE_CONFLICT`
failure: undo on a non-`PICKED_UP` order and pickup on a `PICKED_UP` order
both return the order completely unchanged, with no error. -/
theorem claim_C6_undeclared_state_noop (o : Order) (sid : Nat) :
    (o.status ≠ "PICKED_UP" → staff_inline_undo_pickup_order o sid = .ok o)
      ∧ (o.status = "PICKED_UP" → ∀ now : Int,
          staff_inline_pickup_order o sid now = .ok o) := by
  constructor
  · intro h
    unfold staff_inline_undo_pickup_order
    rw [if_neg h]
  · intro h now
    unfold staff_inline_pickup_order
    rw [if_neg (fun hne => hne h)]

/-- Witness for claim C6: the inline undo on the pending `sampleOrder` is a
no-op success. -/
theorem claim_C6_undeclared_state_noop_witness :
    staff_inline_undo_pickup_order sampleOrder 2 = .ok sampleOrder := by
  exact (claim_C6_undeclared_state_noop sampleOrder 2).1 (by decide)

/-! ## Cash-closing claims C4 and C5 -/

/-- Claim C4: `verifyAndLock` on a cash closing succeeds exactly when the
row is `SUBMITTED`, a submitter is recorded, the acting verifier differs
from the submitter and all four checklist flags are on; a missing submitter
or self-verification fails with `AUTHORIZATION_ERROR`, an incomplete
checklist fails with `VALIDATION_ERROR`, a wrong workflow state fails with
`STATE_CONFLICT`; on success all four checklist fields are set true, the
status becomes `LOCKED`, and the verifier identity and timestamp are
recorded. -/
theorem claim_C4_verify_lock (row : CashClosingRow)
    (c1 c2 c3 c4 : String) (actor : Nat) (now : Int) :
    (row.workflow_status ≠ "SUBMITTED" →
        staff_cash_closing_verify_lock row c1 c2 c3 c4 actor now
          = .error .stateConflict)
      ∧ (row.workflow_status = "SUBMITTED" →
          (submitterFalsy row = true ∨ row.submitted_by_staff_id = some actor) →
          staff_cash_closing_verify_lock row c1 c2 c3 c4 actor now
            = .error .authorizationError)
      ∧ (row.workflow_status = "SUBMITTED" → submitterFalsy row = false →
          row.submitted_by_staff_id ≠ some actor →
          ((c1 == "on") = false ∨ (c2 == "on") = false
            ∨ (c3 == "on") = false ∨ (c4 == "on") = false) →
          staff_cash_closing_verify_lock row c1 c2 c3 c4 actor now
            = .error .validationError)
      ∧ (row.workflow_status = "SUBMITTED" → submitterFalsy row = false →
          row.submitted_by_staff_id ≠ some actor →
          (c1 == "on") = true → (c2 == "on") = true →
          (c3 == "on") = true → (c4 == "on") = true →
          staff_cash_closing_verify_lock row c1 c2 c3 c4 actor now
            = .ok { row with
                    check_cash_match := true
                    check_qr_match := true
                    check_pending_items := true
                    check_handover_note := true
                    workflow_status := "LOCKED"
                    verified_by_staff_id := some actor
                    verified_at := some now
                    staff_id := some actor })
      ∧ ∀ r' : CashClosingRow,
          staff_cash_closing_verify_lock row c1 c2 c3 c4 actor now = .ok r' →
            row.workflow_status = "SUBMITTED" ∧ submitterFalsy row = false
              ∧ row.submitted_by_staff_id ≠ some actor
              ∧ (c1 == "on") = true ∧ (c2 == "on") = true
              ∧ (c3 == "on") = true ∧ (c4 == "on") = true
              ∧ r'.check_cash_match = true ∧ r'.check_qr_match = true
              ∧ r'.check_pending_items = true ∧ r'.check_handover_note = true
              ∧ r'.workflow_status = "LOCKED"
              ∧ r'.verified_by_staff_id = some actor
              ∧ r'.verified_at = some now := by
  refine ⟨?_, ?_, ?_, ?_, ?_⟩
  · intro h
    unfold staff_cash_closing_verify_lock
    rw [if_pos h]
  · intro hs hd
    unfold staff_cash_closing_verify_lock
    rw [if_neg (fun hne => hne hs)]
    by_cases hf : submitterFalsy row = true
    · rw [if_pos hf]
    · rw [if_neg hf]
      rcases hd with hd | hd
      · exact absurd hd hf
      · rw [if_pos hd]
  · intro hs hf hne hcl
    unfold staff_cash_closing_verify_lock
    rw [if_neg (fun k => k hs), if_neg (by simp [hf]), if_neg hne]
    have hall : ([c1 == "on", c2 == "on", c3 == "on", c4 == "on"].all id) = false := by
      rcases hcl with h | h | h | h <;> simp [h]
    rw [if_pos (by simp [hall])]
  · intro hs hf hne h1 h2 h3 h4
    unfold staff_cash_closing_verify_lock
    rw [if_neg (fun k => k hs), if_neg (by simp [hf]), if_neg hne]
    have hall : ([c1 == "on", c2 == "on", c3 == "on", c4 == "on"].all id) = true := by
      simp [h1, h2, h3, h4]
    rw [if_neg (by simp [hall])]
  · intro r' h
    unfold staff_cash_closing_verify_lock at h
    by_cases h1 : row.workflow_status ≠ "SUBMITTED"
    · rw [if_pos h1] at h
      simp at h
    rw [if_neg h1] at h
    by_cases h2 : submitterFalsy row = true
    · rw [if_pos h2] at h
      simp at h
    rw [if_neg h2] at h
    by_cases h3 : row.submitted_by_staff_id = some actor
    · rw [if_pos h3] at h
      simp at h
    rw [if_neg h3] at h
    by_cases h4 : ([c1 == "on", c2 == "on", c3 == "on", c4 == "on"].all id) = true
    · rw [if_neg (not_not_intro h4)] at h
      injection h with h
      subst h
      simp only [List.all_cons, List.all_nil, id_eq, Bool.and_true,
        Bool.and_eq_true] at h4
      obtain ⟨hc1, hc2, hc3, hc4⟩ := h4
      exact ⟨not_not.mp h1, by simpa using h2, h3, hc1, hc2, hc3, hc4,
             rfl, rfl, rfl, rfl, rfl, rfl, rfl⟩
    · rw [if_pos h4] at h
      simp at h

/-- A `SUBMITTED` closing row, submitted by staff 1. -/
def sampleSubmittedRow : CashClosingRow where
  closing_id := 7
  business_date := 19723
  closing_type := "MORNING_HANDOVER"
  workflow_status := "SUBMITTED"
  counts := []
  total_amount := 0
  paypay_amount := 0
  actual_qr_amount := 0
  qr_difference_amount := 0
  check_auto_amount := 0
  expected_amount := 0
  actual_amount := 0
  difference_amount := 0
  submitted_by_staff_id := some 1
  submitted_at := some 500
  verified_by_staff_id := none
  verified_at := none
  check_cash_match := false
  check_qr_match := false
  check_pending_items := false
  check_handover_note := false
  staff_id := some 1

/-- Witness for claim C4: staff 2 verify-locks the row staff 1 submitted,
with all four checklist flags on. -/
theorem claim_C4_verify_lock_witness :
    staff_cash_closing_verify_lock sampleSubmittedRow "on" "on" "on" "on" 2 777
      = .ok { sampleSubmittedRow with
              check_cash_match := true
              check_qr_match := true
              check_pending_items := true
              check_handover_note := true
              workflow_status := "LOCKED"
              verified_by_staff_id := some 2
              verified_at := some 777
              staff_id := some 2 } := by
  exact (claim_C4_verify_lock sampleSubmittedRow "on" "on" "on" "on" 2 777).2.2.2.1
    rfl rfl (by decide) rfl rfl rfl rfl

/-- Refutation of claim C5 as stated: with a live `MORNING_HANDOVER` row
already present for the date, a second create call for the same
`(business_date, closing_type)` does not fail with `UNIQUENESS_CONFLICT`
(or at all) — it redirects to the existing row's edit view and inserts
nothing. -/
theorem claim_C5_counterexample :
    staff_cash_closing_create [] [sampleSubmittedRow] 19723 "morning_handover"
        [] 0 3 9
      = .ok (.redirected 7, [sampleSubmittedRow]) := rfl

/-- Claim C5 (amended): when a live row for `(business_date, closing_type)`
exists, a second create call inserts no new row, but it does not fail: it
succeeds with a redirect to the first matching row's edit view, leaving the
table unchanged.  The duplicate-key `UNIQUENESS_CONFLICT` is raised only by
`ensure_unique_cash_closing_type`, which the update path uses. -/
theorem claim_C5_duplicate_create (orders : List Order)
    (db : List CashClosingRow) (business_date : Int)
    (closing_type nt : String) (counts : DenomCounts)
    (actual_qr_amount : Int) (actor new_id : Nat) (r : CashClosingRow)
    (hparse : parse_cash_closing_type closing_type = .ok nt)
    (hfind : db.find? (fun row => decide (row.business_date = business_date)
        && (row.closing_type == nt)) = some r) :
    staff_cash_closing_create orders db business_date closing_type counts
        actual_qr_amount actor new_id = .ok (.redirected r.closing_id, db)
      ∧ ensure_unique_cash_closing_type db business_date nt none
          = .error .uniquenessConflict := by
  constructor
  · simp only [staff_cash_closing_create, hparse, hfind]
  · have hmem := List.mem_of_find?_eq_some hfind
    have hpred := List.find?_some hfind
    have hmemf : r ∈ db.filter (fun row =>
        decide (row.business_date = business_date) && (row.closing_type == nt)) :=
      List.mem_filter.mpr ⟨hmem, hpred⟩
    have hne : db.filter (fun row =>
        decide (row.business_date = business_date) && (row.closing_type == nt)) ≠ [] :=
      List.ne_nil_of_mem hmemf
    unfold ensure_unique_cash_closing_type
    rw [if_neg (by simp [List.isEmpty_iff, hne])]

/-- Witness for claim C5: the duplicate create against the concrete
one-row table redirects to that row and leaves the table as it was. -/
theorem claim_C5_duplicate_create_witness :
    staff_cash_closing_create [] [sampleSubmittedRow] 19723 "MORNING_HANDOVER"
        [] (-1) 2 9
      = .ok (.redirected 7, [sampleSubmittedRow]) := by
  have h := (claim_C5_duplicate_create [] [sampleSubmittedRow] 19723
      "MORNING_HANDOVER" "MORNING_HANDOVER" [] (-1) 2 9 sampleSubmittedRow
      rfl rfl).1
  simpa [sampleSubmittedRow] using h

/-! ## Ledger-sales claim C10 -/

/-- Closed form of the sales accumulation loop: each bucket is its starting
accumulator plus the sum of `prepaid_amount` over the orders paying with
the bucket's method, and the total is the sum of the two buckets. -/
theorem salesLoop_spec (l : List Order) : ∀ c q : Int,
    salesLoop l c q
      = ⟨c + ((l.filter (fun o => decide (o.payment_method = some "CASH"))).map
               (fun o => o.prepaid_amount)).sum,
         q + ((l.filter (fun o => decide (o.payment_method = some "PAY_QR"))).map
               (fun o => o.prepaid_amount)).sum,
         c + ((l.filter (fun o => decide (o.payment_method = some "CASH"))).map
               (fun o => o.prepaid_amount)).sum
           + (q + ((l.filter (fun o => decide (o.payment_method = some "PAY_QR"))).map
               (fun o => o.prepaid_amount)).sum)⟩ := by
  induction l with
  | nil => intro c q; simp [salesLoop]
  | cons o rest ih =>
    intro c q
    by_cases hc : o.payment_method = some "CASH"
    · simp only [salesLoop, hc, if_pos rfl, List.filter_cons, ih]
      simp [hc]
      omega
    · by_cases hq : o.payment_method = some "PAY_QR"
      · simp only [salesLoop, if_neg hc, if_pos hq, ih]
        simp [hc, hq]
        omega
      · simp only [salesLoop, if_neg hc, if_neg hq, ih]
        simp [hc, hq]

/-- `summarize_order_sales_for_date` in closed form. -/
theorem summarize_order_sales_spec (orders : List Order) (business_date : Int) :
    summarize_order_sales_for_date orders business_date
      = ⟨((orders.filter (fun o => salesDateFilter business_date o
            && decide (o.payment_method = some "CASH"))).map
            (fun o => o.prepaid_amount)).sum,
         ((orders.filter (fun o => salesDateFilter business_date o
            && decide (o.payment_method = some "PAY_QR"))).map
            (fun o => o.prepaid_amount)).sum,
         ((orders.filter (fun o => salesDateFilter business_date o
            && decide (o.payment_method = some "CASH"))).map
            (fun o => o.prepaid_amount)).sum
           + ((orders.filter (fun o => salesDateFilter business_date o
            && decide (o.payment_method = some "PAY_QR"))).map
            (fun o => o.prepaid_amount)).sum⟩ := by
  unfold summarize_order_sales_for_date
  rw [salesLoop_spec]
  simp [List.filter_filter, Bool.and_comm]

/-- Claim C10: the automatic ledger-sales baseline used by the cash
closing sums only `prepaid_amount` — never the pickup overage fields —
over the orders created within the business date (JST) whose status is
`PAID` or `PICKED_UP`, split by payment method; a method that is neither
`CASH` nor `PAY_QR` contributes to neither bucket; and
`build_cash_closing_fields` wires the cash bucket into
`check_auto_amount`/`expected_amount` and the QR bucket into
`paypay_amount` and the differences. -/
theorem claim_C10_ledger_sales_baseline (orders : List Order)
    (business_date : Int) (counts : DenomCounts) (actual_qr_amount : Int) :
    ((summarize_order_sales_for_date orders business_date).cash_amount
        = ((orders.filter (fun o => salesDateFilter business_date o
             && decide (o.payment_method = some "CASH"))).map
             (fun o => o.prepaid_amount)).sum)
      ∧ ((summarize_order_sales_for_date orders business_date).qr_amount
          = ((orders.filter (fun o => salesDateFilter business_date o
               && decide (o.payment_method = some "PAY_QR"))).map
               (fun o => o.prepaid_amount)).sum)
      ∧ (∀ o : Order, salesDateFilter business_date o = true ↔
           ((business_date_range_utc business_date).1 ≤ o.created_at
             ∧ o.created_at < (business_date_range_utc business_date).2
             ∧ (o.status = "PAID" ∨ o.status = "PICKED_UP")))
      ∧ (∀ (g : Order → Option Int) (f : Order → Int),
           summarize_order_sales_for_date
               (orders.map (fun o => { o with extra_amount := g o, final_amount := f o }))
               business_date
             = summarize_order_sales_for_date orders business_date)
      ∧ (∀ o : Order, o.payment_method ≠ some "CASH" →
           o.payment_method ≠ some "PAY_QR" →
           summarize_order_sales_for_date (o :: orders) business_date
             = summarize_order_sales_for_date orders business_date)
      ∧ ∀ fields : CashClosingFields,
          build_cash_closing_fields counts actual_qr_amount orders business_date
              = .ok fields →
            fields.check_auto_amount
                = (summarize_order_sales_for_date orders business_date).cash_amount
              ∧ fields.expected_amount
                  = (summarize_order_sales_for_date orders business_date).cash_amount
              ∧ fields.paypay_amount
                  = (summarize_order_sales_for_date orders business_date).qr_amount
              ∧ fields.total_amount = calc_cash_total counts
              ∧ fields.difference_amount
                  = calc_cash_total counts
                      - (summarize_order_sales_for_date orders business_date).cash_amount
              ∧ fields.qr_difference_amount
                  = fields.actual_qr_amount
                      - (summarize_order_sales_for_date orders business_date).qr_amount := by
  refine ⟨?_, ?_, ?_, ?_, ?_, ?_⟩
  · rw [summarize_order_sales_spec]
  · rw [summarize_order_sales_spec]
  · intro o
    simp only [salesDateFilter, Bool.and_eq_true, decide_eq_true_iff,
      beq_iff_eq, Bool.or_eq_true]
    tauto
  · intro g f
    rw [summarize_order_sales_spec, summarize_order_sales_spec]
    simp only [List.filter_map, List.map_map]
    rfl
  · intro o hc hq
    unfold summarize_order_sales_for_date
    rw [List.filter_cons]
    by_cases hdf : (salesDateFilter business_date o) = true
    · rw [if_pos (by simp [hdf])]
      simp [salesLoop, hc, hq]
    · rw [if_neg (by simp [hdf])]
  · intro fields h
    unfold build_cash_closing_fields at h
    dsimp only at h
    split_ifs at h with hneg
    injection h with h
    subst h
    exact ⟨rfl, rfl, rfl, rfl, rfl, rfl⟩

/-- `sampleOrder` paid with a method outside `{CASH, PAY_QR}`. -/
def sampleCardOrder : Order := { sampleOrder with payment_method := some "CARD" }

/-- Witness for claim C10: an order paying with `"CARD"` contributes to
neither automatic bucket. -/
theorem claim_C10_ledger_sales_baseline_witness :
    summarize_order_sales_for_date [sampleCardOrder, samplePaidOrder] 0
      = summarize_order_sales_for_date [samplePaidOrder] 0 := by
  exact (claim_C10_ledger_sales_baseline [samplePaidOrder] 0 [] 0).2.2.2.2.1
    sampleCardOrder (by decide) (by decide)

end Luggage
